import Mathlib

/-!
Shallow embedding of the booking-form logic of `src/components/BookingForm.jsx`
(the refined variant of the turnos-booking client).  Pure helpers are embedded
as Lean functions; the stateful React handlers are embedded as explicit state
transformers taking the outcome of the remote call as a parameter.  Machine
times are minutes since the Unix epoch (`Int`); civil dates are triples
`(year, month, day)` computed with the standard Gregorian day-count algorithm,
mirroring what a JavaScript `Date` stores and renders.
-/

namespace Booking

/-- `value.replace(/\D/g, '')` on the character list: keep digits only. -/
def stripNonDigits : List Char → List Char
  | [] => []
  | c :: cs => if c.isDigit then c :: stripNonDigits cs else stripNonDigits cs

/-- DNI normalization performed by `handleInputChange` for `field === 'dni'`. -/
def normalizeDni (s : String) : String :=
  ⟨stripNonDigits s.data⟩

/-- `value.replace(/[ .-]/g, '')` for `field === 'telefono'`. -/
def normalizeTelefono (s : String) : String :=
  ⟨s.data.filter (fun c => !(c = ' ' || c = '.' || c = '-'))⟩

/-- One entry of the `APPOINTMENT_TYPES` constant. -/
structure AppointmentType where
  id : String
  name : String
  duration : Nat
deriving Repr, DecidableEq

/-- The `APPOINTMENT_TYPES` table of the source, in order. -/
def APPOINTMENT_TYPES : List AppointmentType :=
  [ ⟨"consulta", "Consulta", 30⟩,
    ⟨"limpieza", "Limpieza", 45⟩,
    ⟨"ensenanza", "Enseñanza de técnica de cepillado y flúor en niños", 30⟩,
    ⟨"caries_chicos", "Arreglos caries chicos", 45⟩,
    ⟨"caries_grandes", "Arreglos caries grandes", 60⟩,
    ⟨"molde_blanqueamiento", "Toma de molde para blanqueamiento ambulatorio", 30⟩,
    ⟨"molde_relajacion", "Toma de molde para placa de relajación", 30⟩,
    ⟨"instalacion_placas", "Instalación de placas de relajación", 45⟩,
    ⟨"carillas", "Carillas anteriores", 90⟩,
    ⟨"contenciones", "Contenciones", 45⟩,
    ⟨"incrustaciones", "Incrustaciones", 75⟩ ]

/-- `WORK_DAYS = [1, 2, 3, 4]` — Monday to Thursday in JavaScript `getDay`
numbering (0 = Sunday). -/
def WORK_DAYS : List Int := [1, 2, 3, 4]

/-- The `formData` record held in component state. -/
structure FormData where
  dni : String
  nombre : String
  telefono : String
  obraSocial : String
  numeroAfiliado : String
  alergias : String
  antecedentes : String
  tipoTurno : String
  fecha : String
  hora : String
deriving Repr, DecidableEq

/-- The initial (all-empty) `formData`. -/
def emptyForm : FormData :=
  ⟨"", "", "", "", "", "", "", "", "", ""⟩

/-- The component state touched by the lookup handlers. -/
structure FormState where
  formData : FormData
  loading : Bool
  checkingPatient : Bool
  patientFound : Bool
  patientSearched : Bool
  availableSlots : List String
  loadingAvailability : Bool
  success : Bool
  error : String
deriving Repr, DecidableEq

/-- State at mount: everything empty / false. -/
def initialState : FormState :=
  ⟨emptyForm, false, false, false, false, [], false, false, ""⟩

/-- The patient record of a Patient Lookup response; each attribute may be
absent (`none`) or present under its localized or English key. -/
structure PatientRecord where
  nombre : Option String
  name : Option String
  telefono : Option String
  phone : Option String
  obraSocial : Option String
  insurance : Option String
  numeroAfiliado : Option String
  affiliateNumber : Option String
  alergias : Option String
  allergies : Option String
  antecedentes : Option String
  background : Option String
deriving Repr, DecidableEq

/-- A fully-absent patient record. -/
def emptyRecord : PatientRecord :=
  ⟨none, none, none, none, none, none, none, none, none, none, none, none⟩

/-- Parsed body of a Patient Lookup response: `{ found, patient? }`. -/
structure PatientBody where
  found : Bool
  patient : Option PatientRecord
deriving Repr, DecidableEq

/-- Parsed body of an Availability Lookup response: `{ availableSlots? }`. -/
structure AvailBody where
  availableSlots : Option (List String)
deriving Repr, DecidableEq

/-- Outcome of one `fetch` as the handler observes it: a network error, an
abort by the timeout controller, or an HTTP response with its `ok` flag and
its parsed JSON body (`none` when the body fails to parse). -/
inductive FetchOutcome (β : Type) where
  | networkError : FetchOutcome β
  | timeout : FetchOutcome β
  | response (ok : Bool) (body : Option β) : FetchOutcome β
deriving DecidableEq

/-- The outcomes the spec calls failures: network error, timeout, or a
non-success HTTP status. -/
def FetchOutcome.failed {β : Type} : FetchOutcome β → Bool
  | .networkError => true
  | .timeout => true
  | .response ok _ => !ok

/-- JavaScript `a || b` on a possibly-absent string: `a` wins exactly when it
is present and non-empty (the empty string is falsy). -/
def jsOr : Option String → String → String
  | none, b => b
  | some s, b => if s = "" then b else s

/-- The `setFormData` update applied by `checkPatient` when the response says
`found` with a patient record: localized key first, English key second,
default last (`''` for contact/insurance, `'Ninguna'`/`'Ninguno'` for the
medical fields). -/
def populateFromRecord (p : PatientRecord) (f : FormData) : FormData :=
  { f with
    nombre := jsOr p.nombre (jsOr p.name ""),
    telefono := jsOr p.telefono (jsOr p.phone ""),
    obraSocial := jsOr p.obraSocial (jsOr p.insurance ""),
    numeroAfiliado := jsOr p.numeroAfiliado (jsOr p.affiliateNumber ""),
    alergias := jsOr p.alergias (jsOr p.allergies "Ninguna"),
    antecedentes := jsOr p.antecedentes (jsOr p.background "Ninguno") }

/-- The `try` block of `checkPatient` up to obtaining a parsed body: throws
(`.error`) on network error, abort, non-ok status, or unparseable JSON. -/
def patientTryBody : FetchOutcome PatientBody → Except String PatientBody
  | .networkError => .error "TypeError: failed to fetch"
  | .timeout => .error "AbortError"
  | .response ok body =>
      if !ok then .error "Error al consultar paciente"
      else match body with
        | none => .error "SyntaxError: invalid JSON"
        | some b => .ok b

/-- The `checkPatient` handler (`BookingForm.jsx` lines 76–114) as a state
transformer, with the fetch outcome as an explicit parameter. -/
def checkPatient (dni : String) (out : FetchOutcome PatientBody)
    (st : FormState) : FormState :=
  if dni.length < 8 then
    { st with patientFound := false, patientSearched := false }
  else
    let st1 := { st with checkingPatient := true, error := "" }
    let st2 :=
      match patientTryBody out with
      | .ok data =>
          let st' :=
            match data.found, data.patient with
            | true, some p =>
                { st1 with
                  formData := populateFromRecord p st1.formData,
                  patientFound := true }
            | _, _ => { st1 with patientFound := false }
          { st' with patientSearched := true }
      | .error _ =>
          { st1 with
            error := "Error al verificar el paciente. Intenta nuevamente.",
            patientFound := false,
            patientSearched := true }
    { st2 with checkingPatient := false }

/-- The `try` block of `getAvailableSlots`: resolving an unknown `tipoTurno`
throws before the fetch (`appointmentType.duration` on `undefined`); then a
network error, abort, non-ok status, or unparseable body throws; otherwise
the slots are `data.availableSlots || []`. -/
def availTryBody (tipoTurno : String) (out : FetchOutcome AvailBody) :
    Except String (List String) :=
  match APPOINTMENT_TYPES.find? (fun t => t.id = tipoTurno) with
  | none => .error "TypeError: cannot read properties of undefined"
  | some _ =>
      match out with
      | .networkError => .error "TypeError: failed to fetch"
      | .timeout => .error "AbortError"
      | .response ok body =>
          if !ok then .error "Error al consultar disponibilidad"
          else match body with
            | none => .error "SyntaxError: invalid JSON"
            | some b => .ok (b.availableSlots.getD [])

/-- The `getAvailableSlots` handler (`BookingForm.jsx` lines 116–136) as a
state transformer.  Every throw of the `try` block lands in the `catch`,
which only clears `availableSlots`; `error` is never written. -/
def getAvailableSlots (fecha tipoTurno : String) (out : FetchOutcome AvailBody)
    (st : FormState) : FormState :=
  if fecha = "" || tipoTurno = "" then st
  else
    let st1 := { st with loadingAvailability := true }
    let st2 :=
      match availTryBody tipoTurno out with
      | .ok slots => { st1 with availableSlots := slots }
      | .error _ => { st1 with availableSlots := [] }
    { st2 with loadingAvailability := false }

/-- The `isFormValid` predicate (`BookingForm.jsx` lines 233–237), as the
truthiness of the JavaScript expression it returns. -/
def isFormValid (f : FormData) : Bool :=
  (!(f.dni = "") && 8 ≤ f.dni.length) &&
  !(f.nombre = "") &&
  (!(f.telefono = "") && 8 ≤ (stripNonDigits f.telefono.data).length) &&
  !(f.tipoTurno = "") &&
  !(f.fecha = "") &&
  !(f.hora = "")

/-- Whether a submit gesture reaches `handleSubmit`'s fetch: the only submit
control carries `disabled={!isFormValid() || loading}`, so the Appointment
Creation request is issued only when the form is valid and no submission is
already in flight. -/
def submitIssuesRequest (st : FormState) : Bool :=
  isFormValid st.formData && !st.loading

/-! ### The debounced DNI edit path

`handleInputChange` for `field === 'dni'` (lines 156–172): normalize, store,
clear the pending debounce timer, and either reschedule a lookup (length ≥ 8)
or clear the found/searched flags.  A Patient Lookup request is issued only
when a scheduled timer fires, 400 ms after the last edit. -/

/-- The state relevant to the DNI edit path: the stored `formData.dni`, the
pending debounce timer (`dniDebounceRef`) with the value it would look up,
the two flags, and the list of lookup requests issued so far (in order). -/
structure DniMachine where
  dni : String
  pending : Option String
  patientFound : Bool
  patientSearched : Bool
  issued : List String
deriving Repr, DecidableEq

/-- One `handleInputChange('dni', raw)` event: normalize, store, clear any
pending timer, then reschedule (when the value is non-empty of length ≥ 8)
or clear the flags. -/
def editDni (raw : String) (s : DniMachine) : DniMachine :=
  let value := normalizeDni raw
  let s := { s with dni := value, pending := none }
  if value ≠ "" ∧ 8 ≤ value.length then
    { s with pending := some value }
  else
    { s with patientFound := false, patientSearched := false }

/-- The debounce timer fires: the pending lookup (if any) issues its request. -/
def fireTimer (s : DniMachine) : DniMachine :=
  match s.pending with
  | some v => { s with pending := none, issued := s.issued ++ [v] }
  | none => s

/-- A burst of edits with no timer expiry in between (all inside the 400 ms
debounce window). -/
def processEdits (s : DniMachine) (edits : List String) : DniMachine :=
  edits.foldl (fun s r => editDni r s) s

/-- A burst of edits followed by the end of the debounce window, at which the
surviving timer (if any) fires. -/
def afterWindow (s : DniMachine) (edits : List String) : DniMachine :=
  fireTimer (processEdits s edits)

/-! ### Calendar arithmetic

Days are counted from the Unix epoch 1970-01-01 (a Thursday); the civil
conversion is the standard Gregorian day-count algorithm that `Date`
implements.  `Int.fdiv`/`Int.emod` are floor division and its remainder,
matching the mathematical formulation. -/

/-- Day count from the epoch of a civil date (Gregorian, proleptic). -/
def daysFromCivil (y m d : Int) : Int :=
  let y' := if m ≤ 2 then y - 1 else y
  let era := y'.fdiv 400
  let yoe := y' - era * 400
  let mp := (m + 9).emod 12
  let doy := (153 * mp + 2).fdiv 5 + d - 1
  let doe := yoe * 365 + yoe.fdiv 4 - yoe.fdiv 100 + doy
  era * 146097 + doe - 719468

/-- Civil date `(year, month, day)` of a day count from the epoch. -/
def civilFromDays (z : Int) : Int × Int × Int :=
  let z' := z + 719468
  let era := z'.fdiv 146097
  let doe := z'.emod 146097
  let yoe := (doe - doe.fdiv 1460 + doe.fdiv 36524 - doe.fdiv 146096).fdiv 365
  let y := yoe + era * 400
  let doy := doe - (365 * yoe + yoe.fdiv 4 - yoe.fdiv 100)
  let mp := (5 * doy + 2).fdiv 153
  let d := doy - (153 * mp + 2).fdiv 5 + 1
  let m := mp + (if mp < 10 then 3 else -9)
  (if m ≤ 2 then y + 1 else y, m, d)

/-- JavaScript `getDay()` of a day count: 0 = Sunday … 6 = Saturday
(1970-01-01 was a Thursday, `getDay = 4`). -/
def dayOfWeek (z : Int) : Int :=
  (z + 4).emod 7

/-- `String(n).padStart(2, '0')` for the non-negative numbers it is fed. -/
def pad2 (n : Int) : String :=
  if n < 10 then "0" ++ toString n else toString n

/-- The `value` emitted for a date: `${y}-${m.padStart(2,'0')}-${d.padStart(2,'0')}`
from the date's own (local) civil components. -/
def isoOfDay (z : Int) : String :=
  let c := civilFromDays z
  toString c.1 ++ "-" ++ pad2 c.2.1 ++ "-" ++ pad2 c.2.2

/-- Spanish weekday names, indexed by `getDay` numbering. -/
def weekdayNameEs (w : Int) : String :=
  if w = 0 then "domingo" else if w = 1 then "lunes" else if w = 2 then "martes"
  else if w = 3 then "miércoles" else if w = 4 then "jueves"
  else if w = 5 then "viernes" else "sábado"

/-- Spanish month names, indexed 1–12. -/
def monthNameEs (m : Int) : String :=
  if m = 1 then "enero" else if m = 2 then "febrero" else if m = 3 then "marzo"
  else if m = 4 then "abril" else if m = 5 then "mayo" else if m = 6 then "junio"
  else if m = 7 then "julio" else if m = 8 then "agosto"
  else if m = 9 then "septiembre" else if m = 10 then "octubre"
  else if m = 11 then "noviembre" else "diciembre"

/-- The `label` emitted for a date: `toLocaleDateString('es-AR', { weekday:
'long', year: 'numeric', month: 'long', day: 'numeric' })`, computed from the
same day's civil components as the `value`. -/
def labelOfDay (z : Int) : String :=
  let c := civilFromDays z
  weekdayNameEs (dayOfWeek z) ++ ", " ++ toString c.2.2 ++ " de " ++
    monthNameEs c.2.1 ++ " de " ++ toString c.1

/-- One `{ value, label }` entry of the generated date list. -/
structure DateEntry where
  value : String
  label : String
deriving Repr, DecidableEq

/-- The entry pushed for day `z`: machine value and display label both
rendered from the same `Date` object `d`. -/
def mkDateEntry (z : Int) : DateEntry :=
  ⟨isoOfDay z, labelOfDay z⟩

/-- The `availableDates` memo (`BookingForm.jsx` lines 138–154) as a function
of today's (local) day count: days `today + 1 … today + 14`, filtered to
`WORK_DAYS`, each emitted as a `{ value, label }` pair. -/
def availableDates (today : Int) : List DateEntry :=
  (((List.range 14).map (fun (i : ℕ) => today + 1 + (i : ℤ))).filter
    (fun z => dayOfWeek z ∈ WORK_DAYS)).map mkDateEntry

/-! ### The submission timestamp

`handleSubmit` (lines 188–192) combines `fecha` and `hora`:
`new Date(fecha)` parses the date-only ISO string as **UTC midnight**;
`setHours(h, m, 0, 0)` then re-sets the time-of-day **in the client's local
timezone**; `toLocalISOStringWithOffset` renders the resulting instant with
the client's local components and offset suffix.  Instants are minutes since
the epoch; `o` is the client's offset east of UTC in minutes
(`-getTimezoneOffset()`). -/

/-- `s.split(sep)` for a single-character separator, on the character list. -/
def splitOnChar (sep : Char) : List Char → List (List Char)
  | [] => [[]]
  | c :: cs =>
      match splitOnChar sep cs with
      | [] => [[]]
      | h :: t => if c = sep then [] :: h :: t else (c :: h) :: t

/-- Inner loop of decimal parsing: consume the leading digit run. -/
def parseDigitsAux (acc : Nat) : List Char → Nat
  | [] => acc
  | c :: cs =>
      if c.isDigit then parseDigitsAux (acc * 10 + (c.toNat - 48)) cs else acc

/-- `parseInt(s, 10)` on the digit strings the form feeds it: the value of the
longest leading run of decimal digits. -/
def parseIntJS (l : List Char) : Int :=
  (parseDigitsAux 0 l : Nat)

/-- `parseInt` of the two components of `hora.split(':')`. -/
def parseHora (s : String) : Int × Int :=
  match splitOnChar ':' s.data with
  | h :: m :: _ => (parseIntJS h, parseIntJS m)
  | _ => (0, 0)

/-- `new Date(fecha)` for a date-only ISO string: the instant of UTC midnight
of that civil date, in minutes since the epoch. -/
def parseDateUTC (fecha : String) : Int :=
  match splitOnChar '-' fecha.data with
  | y :: m :: d :: _ => daysFromCivil (parseIntJS y) (parseIntJS m) (parseIntJS d) * 1440
  | _ => 0

/-- `date.setHours(h, mi, 0, 0)` at client offset `o`: keep the local calendar
day of the instant, replace its local time-of-day.  Returns the new instant. -/
def setLocalHours (t o h mi : Int) : Int :=
  ((t + o).fdiv 1440) * 1440 + h * 60 + mi - o

/-- The instant denoted by the `fechaHora` field that `handleSubmit` builds. -/
def appointmentInstant (fecha hora : String) (o : Int) : Int :=
  let hm := parseHora hora
  setLocalHours (parseDateUTC fecha) o hm.1 hm.2

/-- `toLocalISOStringWithOffset` (lines 38–49): local civil components at
offset `o`, seconds zero, plus the `±hh:mm` offset suffix. -/
def toLocalISOStringWithOffset (t o : Int) : String :=
  let l := t + o
  let c := civilFromDays (l.fdiv 1440)
  let minOfDay := l.emod 1440
  let sign := if 0 ≤ o then "+" else "-"
  toString c.1 ++ "-" ++ pad2 c.2.1 ++ "-" ++ pad2 c.2.2 ++
    "T" ++ pad2 (minOfDay.fdiv 60) ++ ":" ++ pad2 (minOfDay.emod 60) ++ ":00" ++
    sign ++ pad2 (o.natAbs / 60 : Nat) ++ ":" ++ pad2 (o.natAbs % 60 : Nat)

/-- The `fechaHora` string sent in the Appointment Creation payload. -/
def fechaHoraPayload (fecha hora : String) (o : Int) : String :=
  toLocalISOStringWithOffset (appointmentInstant fecha hora o) o

/-- Wall-clock reading of an instant in America/Argentina/Buenos_Aires
(fixed UTC−03:00, no DST): civil date plus (hour, minute). -/
def buenosAiresWallClock (t : Int) : (Int × Int × Int) × Int × Int :=
  let l := t - 180
  (civilFromDays (l.fdiv 1440), ((l.emod 1440).fdiv 60, (l.emod 1440).emod 60))

/-! ### Helper lemmas -/

/-- `stripNonDigits` is exactly `List.filter Char.isDigit`. -/
theorem stripNonDigits_eq_filter (l : List Char) :
    stripNonDigits l = l.filter (fun c => c.isDigit) := by
  induction l with
  | nil => rfl
  | cons c cs ih =>
      unfold stripNonDigits
      rw [List.filter_cons]
      by_cases hc : c.isDigit <;> simp [hc, ih]

/-- A DNI edit never issues a request by itself. -/
theorem editDni_issued (raw : String) (s : DniMachine) :
    (editDni raw s).issued = s.issued := by
  unfold editDni
  dsimp only
  split <;> rfl

/-- A burst of edits issues no request; requests only arise from timer fires. -/
theorem processEdits_issued (edits : List String) :
    ∀ s : DniMachine, (processEdits s edits).issued = s.issued := by
  induction edits with
  | nil => intro s; rfl
  | cons r rs ih =>
      intro s
      show (processEdits (editDni r s) rs).issued = s.issued
      rw [ih (editDni r s), editDni_issued]

/-! ### Claim theorems -/

/-- Claim C9: for every raw input string, the DNI normalization applied on
edit produces exactly the subsequence of the input's digit characters in
their original order: only digits remain, the result is a sublist of the
input (no reordering or duplication), and no digit is dropped (it equals the
digit filter of the input). -/
theorem C9_normalizeDni_digit_subsequence (s : String) :
    (normalizeDni s).data = s.data.filter (fun c => c.isDigit) ∧
    (normalizeDni s).data.Sublist s.data ∧
    ∀ c ∈ (normalizeDni s).data, c.isDigit = true := by
  have h : (normalizeDni s).data = s.data.filter (fun c => c.isDigit) :=
    stripNonDigits_eq_filter s.data
  refine ⟨h, ?_, ?_⟩
  · rw [h]; exact List.filter_sublist s.data
  · intro c hc
    rw [h] at hc
    exact (List.mem_filter.mp hc).2

/-- Claim C8: editing the DNI to a normalized value of length < 8 clears
`patientFound` and `patientSearched`, cancels any pending debounce timer, and
issues no Patient Lookup request. -/
theorem C8_short_dni_clears_flags_no_request (s : DniMachine) (raw : String)
    (h : (normalizeDni raw).length < 8) :
    (editDni raw s).patientFound = false ∧
    (editDni raw s).patientSearched = false ∧
    (editDni raw s).pending = none ∧
    (editDni raw s).issued = s.issued := by
  have hc : ¬(normalizeDni raw ≠ "" ∧ 8 ≤ (normalizeDni raw).length) := by
    rintro ⟨-, h8⟩; omega
  unfold editDni
  simp [hc]

/-- Claim C8 witness: the concrete edit `"123a4567"` (normalized `"1234567"`,
7 digits) clears both flags, leaves no timer pending, and issues nothing. -/
theorem C8_witness :
    (editDni "123a4567" ⟨"12345678", some "12345678", true, true, []⟩).patientFound = false ∧
    (editDni "123a4567" ⟨"12345678", some "12345678", true, true, []⟩).patientSearched = false ∧
    (editDni "123a4567" ⟨"12345678", some "12345678", true, true, []⟩).pending = none ∧
    (editDni "123a4567" ⟨"12345678", some "12345678", true, true, []⟩).issued =
      (⟨"12345678", some "12345678", true, true, []⟩ : DniMachine).issued :=
  C8_short_dni_clears_flags_no_request _ "123a4567" (by decide)

/-- Claim C2: whenever one of the six required fields is empty, the submit
control is disabled and no Appointment Creation request is issued. -/
theorem C2_submit_blocked_on_empty_required_field (st : FormState)
    (h : st.formData.dni = "" ∨ st.formData.nombre = "" ∨ st.formData.telefono = "" ∨
         st.formData.tipoTurno = "" ∨ st.formData.fecha = "" ∨ st.formData.hora = "") :
    submitIssuesRequest st = false := by
  unfold submitIssuesRequest isFormValid
  rcases h with h | h | h | h | h | h <;> simp [h]

/-- The spec's example state: every field of C2's particular form state. -/
def c2ExampleState : FormState :=
  { initialState with
    formData :=
      { emptyForm with
        dni := "12345678", nombre := "", telefono := "123",
        tipoTurno := "consulta", fecha := "2025-01-06", hora := "15:00" } }

/-- Claim C2 witness: the spec's example state (empty `nombre`) never reaches
the Appointment Creation call. -/
theorem C2_witness : submitIssuesRequest c2ExampleState = false :=
  C2_submit_blocked_on_empty_required_field c2ExampleState (Or.inr (Or.inl rfl))

/-- Claim C3: a finite burst of DNI edits inside the debounce window (no
timer expiry between edits) issues at most one Patient Lookup request, and
any request issued carries the final edited value; every nonempty edit
sequence is of the form `edits ++ [last]`. -/
theorem C3_debounce_at_most_one_lookup (s : DniMachine) (edits : List String)
    (last : String) (h0 : s.issued = []) :
    (afterWindow s (edits ++ [last])).issued.length ≤ 1 ∧
    ∀ v ∈ (afterWindow s (edits ++ [last])).issued, v = normalizeDni last := by
  have hpe : processEdits s (edits ++ [last]) = editDni last (processEdits s edits) := by
    unfold processEdits
    rw [List.foldl_append]
    rfl
  have hiss : (processEdits s edits).issued = [] := by
    rw [processEdits_issued edits s, h0]
  unfold afterWindow
  rw [hpe]
  by_cases hc : (normalizeDni last ≠ "" ∧ 8 ≤ (normalizeDni last).length) <;>
    · unfold editDni fireTimer
      simp [hc, hiss]

/-- The mount-time state of the DNI edit path. -/
def dniStart : DniMachine := ⟨"", none, false, false, []⟩

/-- Claim C3 witness: the burst `"1", "12", …, "12345678"` issues at most one
lookup, and only for the final value `"12345678"`. -/
theorem C3_witness :
    (afterWindow dniStart
        (["1", "12", "123", "1234", "12345", "123456", "1234567"] ++ ["12345678"])).issued.length ≤ 1 ∧
    ∀ v ∈ (afterWindow dniStart
        (["1", "12", "123", "1234", "12345", "123456", "1234567"] ++ ["12345678"])).issued,
      v = normalizeDni "12345678" :=
  C3_debounce_at_most_one_lookup dniStart
    ["1", "12", "123", "1234", "12345", "123456", "1234567"] "12345678" rfl

/-- The patient record of the spec's end-to-end scenario: `nombre`,
`telefono` and `alergias` present, everything else absent. -/
def anaRecord : PatientRecord :=
  { emptyRecord with
    nombre := some "Ana Gomez", telefono := some "3811234567",
    alergias := some "Penicilina" }

/-- Claim C4 counterexample: the scenario record carries no `antecedentes`
(nor `background`) key and the pre-lookup field is empty, yet immediately
after the lookup the field already holds the default `"Ninguno"` — the
defaults are applied at lookup time, contradicting the claim that they are
applied only at submission time. -/
theorem C4_counterexample_defaults_applied_at_lookup :
    anaRecord.antecedentes = none ∧ anaRecord.background = none ∧
    initialState.formData.antecedentes = "" ∧
    (checkPatient "30111222" (.response true (some ⟨true, some anaRecord⟩))
        initialState).formData.antecedentes = "Ninguno" := by
  decide

/-- Claim C4 (amended): a found-patient lookup overwrites each
contact/insurance/medical field by the localized-then-English first-non-empty
fallback, with the `"Ninguna"`/`"Ninguno"` defaults for the medical fields
applied already at lookup time; it sets `patientFound := true` and leaves the
`dni`, `tipoTurno`, `fecha`, `hora` fields untouched. -/
theorem C4_lookup_populates_with_fallback (st : FormState) (dni : String)
    (p : PatientRecord) (h8 : 8 ≤ dni.length) :
    (checkPatient dni (.response true (some ⟨true, some p⟩)) st).formData.nombre
        = jsOr p.nombre (jsOr p.name "") ∧
    (checkPatient dni (.response true (some ⟨true, some p⟩)) st).formData.telefono
        = jsOr p.telefono (jsOr p.phone "") ∧
    (checkPatient dni (.response true (some ⟨true, some p⟩)) st).formData.obraSocial
        = jsOr p.obraSocial (jsOr p.insurance "") ∧
    (checkPatient dni (.response true (some ⟨true, some p⟩)) st).formData.numeroAfiliado
        = jsOr p.numeroAfiliado (jsOr p.affiliateNumber "") ∧
    (checkPatient dni (.response true (some ⟨true, some p⟩)) st).formData.alergias
        = jsOr p.alergias (jsOr p.allergies "Ninguna") ∧
    (checkPatient dni (.response true (some ⟨true, some p⟩)) st).formData.antecedentes
        = jsOr p.antecedentes (jsOr p.background "Ninguno") ∧
    (checkPatient dni (.response true (some ⟨true, some p⟩)) st).patientFound = true ∧
    (checkPatient dni (.response true (some ⟨true, some p⟩)) st).formData.dni
        = st.formData.dni ∧
    (checkPatient dni (.response true (some ⟨true, some p⟩)) st).formData.tipoTurno
        = st.formData.tipoTurno ∧
    (checkPatient dni (.response true (some ⟨true, some p⟩)) st).formData.fecha
        = st.formData.fecha ∧
    (checkPatient dni (.response true (some ⟨true, some p⟩)) st).formData.hora
        = st.formData.hora := by
  have hlt : ¬ dni.length < 8 := by omega
  simp [checkPatient, patientTryBody, populateFromRecord, hlt]

/-- Claim C4 witness: the `"Ana Gomez"` scenario at `dni = "30111222"`. -/
theorem C4_witness :
    (checkPatient "30111222" (.response true (some ⟨true, some anaRecord⟩))
        initialState).formData.nombre
        = jsOr anaRecord.nombre (jsOr anaRecord.name "") ∧
    (checkPatient "30111222" (.response true (some ⟨true, some anaRecord⟩))
        initialState).formData.telefono
        = jsOr anaRecord.telefono (jsOr anaRecord.phone "") ∧
    (checkPatient "30111222" (.response true (some ⟨true, some anaRecord⟩))
        initialState).formData.obraSocial
        = jsOr anaRecord.obraSocial (jsOr anaRecord.insurance "") ∧
    (checkPatient "30111222" (.response true (some ⟨true, some anaRecord⟩))
        initialState).formData.numeroAfiliado
        = jsOr anaRecord.numeroAfiliado (jsOr anaRecord.affiliateNumber "") ∧
    (checkPatient "30111222" (.response true (some ⟨true, some anaRecord⟩))
        initialState).formData.alergias
        = jsOr anaRecord.alergias (jsOr anaRecord.allergies "Ninguna") ∧
    (checkPatient "30111222" (.response true (some ⟨true, some anaRecord⟩))
        initialState).formData.antecedentes
        = jsOr anaRecord.antecedentes (jsOr anaRecord.background "Ninguno") ∧
    (checkPatient "30111222" (.response true (some ⟨true, some anaRecord⟩))
        initialState).patientFound = true ∧
    (checkPatient "30111222" (.response true (some ⟨true, some anaRecord⟩))
        initialState).formData.dni = initialState.formData.dni ∧
    (checkPatient "30111222" (.response true (some ⟨true, some anaRecord⟩))
        initialState).formData.tipoTurno = initialState.formData.tipoTurno ∧
    (checkPatient "30111222" (.response true (some ⟨true, some anaRecord⟩))
        initialState).formData.fecha = initialState.formData.fecha ∧
    (checkPatient "30111222" (.response true (some ⟨true, some anaRecord⟩))
        initialState).formData.hora = initialState.formData.hora :=
  C4_lookup_populates_with_fallback initialState "30111222" anaRecord (by decide)

/-- Any failing fetch makes the availability `try` block throw. -/
theorem availTryBody_failed_is_error (tipoTurno : String)
    (out : FetchOutcome AvailBody) (h : out.failed = true) :
    ∃ e, availTryBody tipoTurno out = .error e := by
  unfold availTryBody
  cases hfind : APPOINTMENT_TYPES.find? (fun t => t.id = tipoTurno) with
  | none => exact ⟨_, rfl⟩
  | some t =>
      cases out with
      | networkError => exact ⟨_, rfl⟩
      | timeout => exact ⟨_, rfl⟩
      | response ok body =>
          cases ok with
          | false => exact ⟨_, rfl⟩
          | true => simp [FetchOutcome.failed] at h

/-- Any failing fetch makes the patient `try` block throw. -/
theorem patientTryBody_failed_is_error (out : FetchOutcome PatientBody)
    (h : out.failed = true) :
    ∃ e, patientTryBody out = .error e := by
  unfold patientTryBody
  cases out with
  | networkError => exact ⟨_, rfl⟩
  | timeout => exact ⟨_, rfl⟩
  | response ok body =>
      cases ok with
      | false => exact ⟨_, rfl⟩
      | true => simp [FetchOutcome.failed] at h

/-- Claim C5: a failing availability lookup clears `availableSlots` to `[]`
and leaves the error banner untouched, while the same kind of failure in the
patient lookup does surface the retry error message. -/
theorem C5_availability_failure_degrades_silently (st : FormState)
    (fecha tipoTurno dni : String) (aout : FetchOutcome AvailBody)
    (pout : FetchOutcome PatientBody) (hf : fecha ≠ "") (ht : tipoTurno ≠ "")
    (ha : aout.failed = true) (h8 : 8 ≤ dni.length) (hp : pout.failed = true) :
    (getAvailableSlots fecha tipoTurno aout st).availableSlots = [] ∧
    (getAvailableSlots fecha tipoTurno aout st).error = st.error ∧
    (checkPatient dni pout st).error =
      "Error al verificar el paciente. Intenta nuevamente." := by
  obtain ⟨e, he⟩ := availTryBody_failed_is_error tipoTurno aout ha
  obtain ⟨e', he'⟩ := patientTryBody_failed_is_error pout hp
  have hlt : ¬ dni.length < 8 := by omega
  unfold getAvailableSlots checkPatient
  simp [hf, ht, he, he', hlt]

/-- Claim C5 witness: a network error on the availability fetch for
`consulta` on 2025-03-05 leaves the slots empty and the banner unchanged,
while a timeout on the patient lookup for `"30111222"` sets the retry
message. -/
theorem C5_witness :
    (getAvailableSlots "2025-03-05" "consulta" .networkError initialState).availableSlots = [] ∧
    (getAvailableSlots "2025-03-05" "consulta" .networkError initialState).error
      = initialState.error ∧
    (checkPatient "30111222" (.timeout : FetchOutcome PatientBody) initialState).error
      = "Error al verificar el paciente. Intenta nuevamente." :=
  C5_availability_failure_degrades_silently initialState "2025-03-05" "consulta"
    "30111222" .networkError .timeout (by decide) (by decide) rfl (by decide) rfl

/-- Claim C6: a failing patient lookup sets the generic retry error message,
resets `patientFound`, marks the search as done, and leaves every form field
(the whole `formData` record, hence `dni`, `nombre`, `telefono`,
`obraSocial`, `numeroAfiliado`, `alergias`, `antecedentes`, `tipoTurno`,
`fecha`, `hora`) unchanged. -/
theorem C6_patient_failure_preserves_fields (st : FormState) (dni : String)
    (out : FetchOutcome PatientBody) (h8 : 8 ≤ dni.length)
    (hfail : out.failed = true) :
    (checkPatient dni out st).error =
      "Error al verificar el paciente. Intenta nuevamente." ∧
    (checkPatient dni out st).patientFound = false ∧
    (checkPatient dni out st).patientSearched = true ∧
    (checkPatient dni out st).formData = st.formData := by
  obtain ⟨e, he⟩ := patientTryBody_failed_is_error out hfail
  have hlt : ¬ dni.length < 8 := by omega
  unfold checkPatient
  simp [hlt, he]

/-- A typed-in state for the frame-effect witnesses. -/
def typedState : FormState :=
  { initialState with
    formData :=
      { emptyForm with
        dni := "30111222", nombre := "Juan Perez", telefono := "3811111111",
        tipoTurno := "consulta", fecha := "2025-03-05", hora := "15:00" } }

/-- Claim C6 witness: a non-OK response for `dni = "30111222"` on a state
with typed fields sets the retry message and changes no form field. -/
theorem C6_witness :
    (checkPatient "30111222" (.response false none) typedState).error =
      "Error al verificar el paciente. Intenta nuevamente." ∧
    (checkPatient "30111222" (.response false none) typedState).patientFound = false ∧
    (checkPatient "30111222" (.response false none) typedState).patientSearched = true ∧
    (checkPatient "30111222" (.response false none) typedState).formData =
      typedState.formData :=
  C6_patient_failure_preserves_fields typedState "30111222" (.response false none)
    (by decide) rfl

/-- Claim C10: when `fecha` and `tipoTurno` are non-empty but `tipoTurno` is
none of the eleven configured appointment-type ids, the handler still returns
normally: the failed resolution throws inside the `try`, the `catch` leaves
`availableSlots` empty, the loading flag is cleared, and no error is set. -/
theorem C10_unknown_tipo_caught (st : FormState) (fecha tipoTurno : String)
    (out : FetchOutcome AvailBody) (hf : fecha ≠ "") (ht : tipoTurno ≠ "")
    (hid : ∀ t ∈ APPOINTMENT_TYPES, t.id ≠ tipoTurno) :
    (getAvailableSlots fecha tipoTurno out st).availableSlots = [] ∧
    (getAvailableSlots fecha tipoTurno out st).loadingAvailability = false ∧
    (getAvailableSlots fecha tipoTurno out st).error = st.error := by
  have hfind : APPOINTMENT_TYPES.find? (fun t => t.id = tipoTurno) = none := by
    rw [List.find?_eq_none]
    intro t ht'
    simpa using hid t ht'
  unfold getAvailableSlots availTryBody
  simp [hf, ht, hfind]

/-- Claim C10 witness: `tipoTurno = "masaje"` with a perfectly good response
still degrades to an empty slot list with no error. -/
theorem C10_witness :
    (getAvailableSlots "2025-03-05" "masaje"
        (.response true (some ⟨some ["10:00", "10:30"]⟩)) initialState).availableSlots = [] ∧
    (getAvailableSlots "2025-03-05" "masaje"
        (.response true (some ⟨some ["10:00", "10:30"]⟩)) initialState).loadingAvailability = false ∧
    (getAvailableSlots "2025-03-05" "masaje"
        (.response true (some ⟨some ["10:00", "10:30"]⟩)) initialState).error =
      initialState.error :=
  C10_unknown_tipo_caught initialState "2025-03-05" "masaje"
    (.response true (some ⟨some ["10:00", "10:30"]⟩)) (by decide) (by decide) (by decide)

/-- Claim C7: every generated date entry comes from a day among the 14
calendar days following today whose weekday is in `WORK_DAYS`
(Monday–Thursday in `getDay` numbering), with `value` and `label` rendered
from that same day; and the number of entries equals the number of such
weekdays among those 14 days. -/
theorem C7_available_dates_workdays_and_count (today : Int) :
    (∀ e ∈ availableDates today, ∃ z : Int,
        today + 1 ≤ z ∧ z ≤ today + 14 ∧ dayOfWeek z ∈ WORK_DAYS ∧
        e.value = isoOfDay z ∧ e.label = labelOfDay z) ∧
    (availableDates today).length =
      ((Finset.Icc (today + 1) (today + 14)).filter
        (fun z => dayOfWeek z ∈ WORK_DAYS)).card := by
  constructor
  · intro e he
    unfold availableDates at he
    obtain ⟨z, hz, rfl⟩ := List.mem_map.mp he
    obtain ⟨hz1, hz2⟩ := List.mem_filter.mp hz
    obtain ⟨i, hi, rfl⟩ := List.mem_map.mp hz1
    have hi' := List.mem_range.mp hi
    refine ⟨today + 1 + (i : ℤ), by omega, by omega, ?_, rfl, rfl⟩
    simpa using hz2
  · have h1 : Finset.Icc (today + 1) (today + 14) =
        (Finset.range 14).image (fun (i : ℕ) => today + 1 + (i : ℤ)) := by
      ext z
      simp only [Finset.mem_Icc, Finset.mem_image, Finset.mem_range]
      constructor
      · intro h
        exact ⟨(z - (today + 1)).toNat, by omega, by omega⟩
      · rintro ⟨i, hi, rfl⟩
        omega
    rw [h1, Finset.filter_image,
      Finset.card_image_of_injective _ (fun i j h => by omega)]
    rw [Finset.card_def, Finset.filter_val, Finset.range_val, ← Multiset.coe_range,
      Multiset.filter_coe, Multiset.coe_card]
    unfold availableDates
    rw [List.length_map, List.filter_map, List.length_map]
    simp only [Function.comp_def]

/-- Claim C1 (code-bug evidence): for `fecha = "2025-03-04"`,
`hora = "15:30"` submitted by a client sitting at the business's own offset
UTC−03:00 (Buenos Aires, `getTimezoneOffset() = 180`), the `fechaHora`
payload string is `"2025-03-03T15:30:00-03:00"`: an instant whose wall clock
in America/Argentina/Buenos_Aires is 15:30 on 2025-03-03 — not on the
selected day 2025-03-04 as the claim requires.  (`new Date("2025-03-04")`
parses as UTC midnight, which is still 2025-03-03 21:00 local, and
`setHours` then keeps that local calendar day.)  A UTC client (offset 0)
gets the selected day but wall clock 12:30 in Buenos Aires. -/
theorem C1_fechaHora_wrong_day_for_buenos_aires_client :
    fechaHoraPayload "2025-03-04" "15:30" (-180) = "2025-03-03T15:30:00-03:00" ∧
    buenosAiresWallClock (appointmentInstant "2025-03-04" "15:30" (-180)) =
      ((2025, 3, 3), 15, 30) ∧
    (buenosAiresWallClock (appointmentInstant "2025-03-04" "15:30" (-180))).1 ≠
      (2025, 3, 4) ∧
    buenosAiresWallClock (appointmentInstant "2025-03-04" "15:30" 0) =
      ((2025, 3, 4), 12, 30) := by
  decide

end Booking
